import Mathlib

/-!
Shallow embedding of the Hajj package recommendation engine
(`src/recommendationEngine.ts` together with the data model in
`src/models.ts`).  JavaScript numbers are modelled as rationals (`ℚ`);
`undefined`-able fields are modelled with `Option`; the nullish
coalescing operator `??` is modelled with `Option.orElse` (`<|>`);
JavaScript truthiness of an optional number (`undefined`, `0` and `NaN`
are falsy) is modelled explicitly where the source relies on it.
Date strings are modelled by their `Date.parse` outcome: empty/undefined,
non-empty but unparseable, or parsing to a millisecond timestamp.
-/

namespace HajjRec

/-! ## Data model (`src/models.ts`) -/

inductive OccupancyType
  | double
  | triple
  | quad
deriving DecidableEq, Repr

inductive ShiftingType
  | shifting
  | nonShifting
deriving DecidableEq, Repr

inductive StayLocation
  | madinah
  | makkah
  | aziziya
deriving DecidableEq, Repr

/-- Makkah zones, A = closest, M = farthest. -/
inductive MakkahZone
  | A
  | B
  | C
  | M
deriving DecidableEq, Repr

inductive MinaCamp
  | majr
  | muaisim
deriving DecidableEq, Repr

/-- A JS optional date string, represented by its `Date.parse` outcome:
`empty` is `undefined` or the empty string (falsy), `unparseable` is a
non-empty string on which `Date.parse` yields `NaN`, and `parsed t` is a
non-empty string parsing to the millisecond timestamp `t`. -/
inductive DateStr
  | empty
  | unparseable
  | parsed (t : ℤ)
deriving DecidableEq, Repr

structure HotelStay where
  city : StayLocation
  hotelName : String
  checkInDate : DateStr
deriving DecidableEq, Repr

/-- Upgrade fees of one stay location (`double?`/`triple?` in `UpgradeFees`). -/
structure CityFees where
  double : Option ℚ := none
  triple : Option ℚ := none
deriving DecidableEq, Repr

/-- Per-location, per-occupancy upgrade fees; 0 or undefined = not available. -/
structure UpgradeFees where
  makkah : Option CityFees := none
  madinah : Option CityFees := none
  aziziya : Option CityFees := none
deriving DecidableEq, Repr

structure FlightInfo where
  gateway : String
  priceSAR : Option ℚ := none
deriving DecidableEq, Repr

structure HajjPackage where
  id : String
  provider : String
  packageName : String
  startDate : DateStr
  endDate : DateStr
  durationDays : ℚ
  firstCity : StayLocation
  isShifting : Bool
  makkahZone : MakkahZone
  minaCamp : MinaCamp
  hotels : List HotelStay
  basePriceSAR : ℚ
  upgradeFees : Option UpgradeFees := none
  flight : Option FlightInfo := none
deriving DecidableEq, Repr

/-- An optional preference field of TS type `α | 'any' | undefined`:
`unset` is `undefined` (falsy), `anyc` is the literal string `'any'`,
`chosen a` is a concrete value.  The engine guards every such field with
`prefs.f && prefs.f !== 'any'`, which is true exactly for `chosen a`. -/
inductive PrefChoice (α : Type)
  | unset
  | anyc
  | chosen (a : α)
deriving DecidableEq, Repr

structure Preferences where
  provider : Option String := none
  firstStay : PrefChoice StayLocation := PrefChoice.unset
  lastStay : PrefChoice StayLocation := PrefChoice.unset
  startDate : DateStr := DateStr.empty
  endDate : DateStr := DateStr.empty
  durationDays : Option ℚ := none
  makkahZone : PrefChoice MakkahZone := PrefChoice.unset
  minaCamp : PrefChoice MinaCamp := PrefChoice.unset
  occupancy : PrefChoice OccupancyType := PrefChoice.unset
  shifting : PrefChoice ShiftingType := PrefChoice.unset
  budgetAmount : ℚ
  budgetCurrency : String := "SAR"
  hujjajCount : ℚ
deriving DecidableEq, Repr

structure Breakdown where
  preferenceMatch : ℚ
  valueQuality : ℚ
  budgetFit : ℚ
  scarcityPenalty : ℚ
deriving DecidableEq, Repr

structure Recommendation where
  pkg : HajjPackage
  totalScore : ℚ
  breakdown : Breakdown
  reasons : List String
deriving DecidableEq, Repr

/-- `MINA_CAPACITY` from `src/models.ts`. -/
def MINA_CAPACITY : MinaCamp → ℚ
  | MinaCamp.majr => 5000
  | MinaCamp.muaisim => 44000

/-! ## Pricing resolver (`src/recommendationEngine.ts`) -/

/-- Majr AlKabsh camp upgrade fee (per person), `MAJR_UPGRADE_FEE_SAR`. -/
def MAJR_UPGRADE_FEE_SAR : ℚ := 467342 / 100

/-- `parseISO`: `undefined`/empty string and unparseable strings give
`undefined`; otherwise the finite timestamp. -/
def parseISO : DateStr → Option ℤ
  | DateStr.empty => none
  | DateStr.unparseable => none
  | DateStr.parsed t => some t

/-- `majrFee`. -/
def majrFee (pkg : HajjPackage) : ℚ :=
  if pkg.minaCamp = MinaCamp.majr then MAJR_UPGRADE_FEE_SAR else 0

/-- The fee selected by the `??` chain in `occupancyAvailable`:
`upgradeFees?.makkah?.<tier> ?? upgradeFees?.madinah?.<tier> ??
upgradeFees?.aziziya?.<tier>` — the first *defined* fee in that order,
even when it is zero or negative. -/
def coalescedFee (pkg : HajjPackage) (occ : OccupancyType) : Option ℚ :=
  let sel : Option CityFees → Option ℚ := fun c =>
    c.bind (fun f => if occ = OccupancyType.double then f.double else f.triple)
  sel (pkg.upgradeFees.bind (fun u => u.makkah)) <|>
    sel (pkg.upgradeFees.bind (fun u => u.madinah)) <|>
    sel (pkg.upgradeFees.bind (fun u => u.aziziya))

/-- `occupancyAvailable`. -/
def occupancyAvailable (pkg : HajjPackage) (occ : OccupancyType) : Bool :=
  if occ = OccupancyType.quad then true
  else
    match coalescedFee pkg occ with
    | some fee => decide (0 < fee)
    | none => false

/-- The local `get` of `priceForOccupancy`: a positive defined fee counts,
anything else contributes 0. -/
def feeOrZero (n : Option ℚ) : ℚ :=
  match n with
  | some x => if 0 < x then x else 0
  | none => 0

/-- The per-tier fee total of `priceForOccupancy`:
`get(fees.makkah?.<tier>) + get(fees.madinah?.<tier>) + get(fees.aziziya?.<tier>)`. -/
def tierFeeTotal (fees : UpgradeFees) (occ : OccupancyType) : ℚ :=
  let sel : Option CityFees → Option ℚ := fun c =>
    c.bind (fun f => if occ = OccupancyType.double then f.double else f.triple)
  feeOrZero (sel fees.makkah) + feeOrZero (sel fees.madinah) +
    feeOrZero (sel fees.aziziya)

/-- `priceForOccupancy` (Option A pricing). -/
def priceForOccupancy (pkg : HajjPackage) (occ : OccupancyType) : Option ℚ :=
  let base := pkg.basePriceSAR
  if base ≤ 0 then none
  else
    let campUpgrade := majrFee pkg
    if occ = OccupancyType.quad then some (base + campUpgrade)
    else
      match pkg.upgradeFees with
      | none => none
      | some fees =>
        let total := tierFeeTotal fees occ
        if 0 < total then some (base + campUpgrade + total) else none

/-! ## Preference matcher (`scorePreferences` and its helpers) -/

/-- `zoneScore`: exact match 1, else linear falloff by 0.25 per step of
ordinal distance along the fixed order `['A','B','C','M']` (both zones are
always found in the order array, so the `indexOf === -1` branch of the
source is dead). -/
def zoneIndex : MakkahZone → ℚ
  | MakkahZone.A => 0
  | MakkahZone.B => 1
  | MakkahZone.C => 2
  | MakkahZone.M => 3

def zoneScore (preferred actual : MakkahZone) : ℚ :=
  if preferred = actual then 1
  else max 0 (1 - |zoneIndex preferred - zoneIndex actual| * (25 / 100))

/-- `campScore`. -/
def campScore (preferred actual : MinaCamp) : ℚ :=
  if preferred = actual then 1 else 0

/-- JS truthiness of an optional date string (`prefs.startDate && ...`):
`undefined` and the empty string are falsy, any other string is truthy. -/
def dateStrTruthy : DateStr → Bool
  | DateStr.empty => false
  | DateStr.unparseable => true
  | DateStr.parsed _ => true

/-- JS truthiness of the guard `prefs.provider && prefs.provider !== 'any'`:
the provider preference is active iff it is a defined, non-empty string
other than `'any'`. -/
def providerActive (p : Option String) : Bool :=
  match p with
  | none => false
  | some s => decide (s ≠ "") && decide (s ≠ "any")

/-- The `(score, max)` contribution of the provider field. -/
def providerContrib (pkg : HajjPackage) (prefs : Preferences) : ℚ × ℚ :=
  match prefs.provider with
  | none => (0, 0)
  | some s =>
    if s ≠ "" ∧ s ≠ "any" then (if pkg.provider = s then 1 else 0, 1)
    else (0, 0)

/-- `pkg.hotels[0]?.city`. -/
def firstStayCity (pkg : HajjPackage) : Option StayLocation :=
  pkg.hotels.head?.map (fun h => h.city)

/-- `pkg.hotels[pkg.hotels.length - 1]?.city`. -/
def lastStayCity (pkg : HajjPackage) : Option StayLocation :=
  pkg.hotels.getLast?.map (fun h => h.city)

def firstStayContrib (pkg : HajjPackage) (prefs : Preferences) : ℚ × ℚ :=
  match prefs.firstStay with
  | PrefChoice.chosen c => (if firstStayCity pkg = some c then 1 else 0, 1)
  | _ => (0, 0)

def lastStayContrib (pkg : HajjPackage) (prefs : Preferences) : ℚ × ℚ :=
  match prefs.lastStay with
  | PrefChoice.chosen c => (if lastStayCity pkg = some c then 1 else 0, 1)
  | _ => (0, 0)

def makkahZoneContrib (pkg : HajjPackage) (prefs : Preferences) : ℚ × ℚ :=
  match prefs.makkahZone with
  | PrefChoice.chosen z => (zoneScore z pkg.makkahZone, 1)
  | _ => (0, 0)

def minaCampContrib (pkg : HajjPackage) (prefs : Preferences) : ℚ × ℚ :=
  match prefs.minaCamp with
  | PrefChoice.chosen c => (campScore c pkg.minaCamp, 1)
  | _ => (0, 0)

def shiftingContrib (pkg : HajjPackage) (prefs : Preferences) : ℚ × ℚ :=
  match prefs.shifting with
  | PrefChoice.chosen sh =>
    let isMatch :=
      (decide (sh = ShiftingType.shifting) && pkg.isShifting) ||
        (decide (sh = ShiftingType.nonShifting) && !pkg.isShifting)
    (if isMatch then 1 else 0, 1)
  | _ => (0, 0)

/-- The date-window score once all four timestamps are defined; the source
additionally requires every timestamp to be truthy (non-zero), since a
numeric `0` fails the `if (uStart && uEnd && pStart && pEnd)` guard. -/
def dateWindowScore (uStart uEnd pStart pEnd : ℤ) : ℚ :=
  if uStart ≠ 0 ∧ uEnd ≠ 0 ∧ pStart ≠ 0 ∧ pEnd ≠ 0 then
    if uStart ≤ pStart ∧ pEnd ≤ uEnd then 1
    else
      let dist : ℤ := min |pStart - uStart| |pEnd - uEnd|
      let days : ℚ := (dist : ℚ) / (1000 * 60 * 60 * 24)
      max 0 (1 - days / 14)
  else 0

/-- The `(score, max)` contribution of the date-window field.  Note the
source increments `max` as soon as both preference dates are truthy
strings, *before* attempting to parse any of the four dates. -/
def dateContrib (pkg : HajjPackage) (prefs : Preferences) : ℚ × ℚ :=
  if dateStrTruthy prefs.startDate && dateStrTruthy prefs.endDate then
    let s : ℚ :=
      match parseISO prefs.startDate, parseISO prefs.endDate,
          parseISO pkg.startDate, parseISO pkg.endDate with
      | some uS, some uE, some pS, some pE => dateWindowScore uS uE pS pE
      | _, _, _, _ => 0
    (s, 1)
  else (0, 0)

def durationContrib (pkg : HajjPackage) (prefs : Preferences) : ℚ × ℚ :=
  match prefs.durationDays with
  | some d =>
    if 0 < d then (max 0 (1 - |pkg.durationDays - d| / 3), 1)
    else (0, 0)
  | none => (0, 0)

structure PrefScoreResult where
  score : ℚ
  max : ℚ
deriving DecidableEq, Repr

/-- `scorePreferences`: the sequential `score += / max +=` blocks of the
source, one contribution pair per preference field, summed in source
order. -/
def scorePreferences (pkg : HajjPackage) (prefs : Preferences) : PrefScoreResult :=
  let c1 := providerContrib pkg prefs
  let c2 := firstStayContrib pkg prefs
  let c3 := lastStayContrib pkg prefs
  let c4 := makkahZoneContrib pkg prefs
  let c5 := minaCampContrib pkg prefs
  let c6 := shiftingContrib pkg prefs
  let c7 := dateContrib pkg prefs
  let c8 := durationContrib pkg prefs
  { score := c1.1 + c2.1 + c3.1 + c4.1 + c5.1 + c6.1 + c7.1 + c8.1
    max := c1.2 + c2.2 + c3.2 + c4.2 + c5.2 + c6.2 + c7.2 + c8.2 }

/-! ## Value, budget, scarcity -/

/-- The camp contribution of `scoreValueQuality`: `majr` 1, `muaisim` 0.6
(the two cases are exhaustive for the restricted camp enum). -/
def campQuality : MinaCamp → ℚ
  | MinaCamp.majr => 1
  | MinaCamp.muaisim => 6 / 10

/-- The zone contribution of `scoreValueQuality`. -/
def zoneQuality : MakkahZone → ℚ
  | MakkahZone.A => 1
  | MakkahZone.B => 7 / 10
  | MakkahZone.C => 4 / 10
  | MakkahZone.M => 2 / 10

/-- The shifting contribution of `scoreValueQuality`. -/
def shiftQuality (pkg : HajjPackage) : ℚ :=
  if pkg.isShifting then 5 / 10 else 0

/-- The hotel-count contribution of `scoreValueQuality`. -/
def hotelsQuality (pkg : HajjPackage) : ℚ :=
  if 2 ≤ pkg.hotels.length then 2 / 10 else 0

/-- The flight contribution of `scoreValueQuality`:
`pkg.flight?.priceSAR && pkg.flight.priceSAR > 0`. -/
def flightQuality (pkg : HajjPackage) : ℚ :=
  match pkg.flight with
  | some f =>
    match f.priceSAR with
    | some p => if 0 < p then 15 / 100 else 0
    | none => 0
  | none => 0

/-- `scoreValueQuality`. -/
def scoreValueQuality (pkg : HajjPackage) : ℚ :=
  min ((campQuality pkg.minaCamp + zoneQuality pkg.makkahZone + shiftQuality pkg +
    hotelsQuality pkg + flightQuality pkg) / 3) 1

/-- The local `target` of `scoreBudgetFit`:
`prefs.budgetAmount / Math.max(1, prefs.hujjajCount)`. -/
def budgetTarget (prefs : Preferences) : ℚ :=
  prefs.budgetAmount / max 1 prefs.hujjajCount

/-- `scoreBudgetFit`. -/
def scoreBudgetFit (pricePerPersonSAR : ℚ) (prefs : Preferences) : ℚ :=
  let target := budgetTarget prefs
  if target ≤ 0 then 0
  else
    let ratio := pricePerPersonSAR / target
    if ratio ≤ 1 then max (6 / 10) ratio
    else max 0 (1 - (ratio - 1))

/-- `scarcityPenalty` (the capacity lookup never yields a falsy value, but
the source checks it). -/
def scarcityPenalty (pkg : HajjPackage) : ℚ :=
  let cap := MINA_CAPACITY pkg.minaCamp
  if cap = 0 then 0
  else if pkg.minaCamp = MinaCamp.majr then 15 / 100 else 0

/-! ## Orchestrator (`recommendPackages`) -/

/-- The normalized preference-match of the orchestrator:
`pref.max === 0 ? 0 : pref.score / pref.max`. -/
def normalizedMatch (pkg : HajjPackage) (prefs : Preferences) : ℚ :=
  let pref := scorePreferences pkg prefs
  if pref.max = 0 then 0 else pref.score / pref.max

/-- The weighted total before `toFixed(3)` rounding. -/
def totalUnrounded (pkg : HajjPackage) (prefs : Preferences) (price : ℚ) : ℚ :=
  normalizedMatch pkg prefs * (6 / 10) + scoreValueQuality pkg * (25 / 100) +
    scoreBudgetFit price prefs * (15 / 100) - scarcityPenalty pkg

/-- `Number(total.toFixed(3))`, modelled as rounding to the nearest
thousandth. -/
def roundTo3 (q : ℚ) : ℚ := (round (q * 1000) : ℤ) / 1000

/-- The reason strings pushed for one candidate, in source order. -/
def reasonsFor (pkg : HajjPackage) (prefScore budgetScore : ℚ) : List String :=
  (if (75 : ℚ) / 100 < prefScore then ["Strong match to your preferences"] else []) ++
    (if pkg.minaCamp = MinaCamp.majr then
      ["Majr AlKabsh (includes +4673.42 SAR pp camp upgrade)",
        "Majr AlKabsh (high quality, very limited capacity)"]
    else []) ++
    (if pkg.minaCamp = MinaCamp.muaisim then ["Al Muaisim (high capacity)"] else []) ++
    (if pkg.isShifting then ["Shifting structure (often better value)"] else []) ++
    (if (85 : ℚ) / 100 < budgetScore then ["Close to your target budget"] else [])

/-- The occupancy the loop prices: the chosen preference, defaulting to
quad when the occupancy preference is unset or `'any'`. -/
def requestedOcc (prefs : Preferences) : OccupancyType :=
  match prefs.occupancy with
  | PrefChoice.chosen o => o
  | _ => OccupancyType.quad

/-- The availability gate of the loop: only checked when a concrete
occupancy is requested. -/
def availabilityOk (pkg : HajjPackage) (prefs : Preferences) : Bool :=
  match prefs.occupancy with
  | PrefChoice.chosen o => occupancyAvailable pkg o
  | _ => true

/-- One iteration of the candidate loop of `recommendPackages`: `none`
when the candidate is excluded (`continue`), otherwise the
`Recommendation` pushed onto `results`. -/
def evalCandidate (prefs : Preferences) (pkg : HajjPackage) : Option Recommendation :=
  if availabilityOk pkg prefs then
    match priceForOccupancy pkg (requestedOcc prefs) with
    | none => none
    | some price =>
      if price ≤ 0 then none
      else
        some
          { pkg := pkg
            totalScore := roundTo3 (totalUnrounded pkg prefs price)
            breakdown :=
              { preferenceMatch := normalizedMatch pkg prefs
                valueQuality := scoreValueQuality pkg
                budgetFit := scoreBudgetFit price prefs
                scarcityPenalty := scarcityPenalty pkg }
            reasons :=
              reasonsFor pkg (normalizedMatch pkg prefs) (scoreBudgetFit price prefs) }
  else none

/-- The `results` list before sorting, in catalog order. -/
def candidates (packages : List HajjPackage) (prefs : Preferences) :
    List Recommendation :=
  packages.filterMap (evalCandidate prefs)

/-- Stable descending insertion: a newcomer is placed after every element
whose score is at least as large.  Folding it over the candidate list
realizes exactly the stable JS `sort((a, b) => b.totalScore - a.totalScore)`. -/
def insertDesc (x : Recommendation) : List Recommendation → List Recommendation
  | [] => [x]
  | y :: ys =>
    if y.totalScore < x.totalScore then x :: y :: ys else y :: insertDesc x ys

def sortDesc (l : List Recommendation) : List Recommendation :=
  l.foldl (fun acc x => insertDesc x acc) []

/-- `recommendPackages`: evaluate every candidate in catalog order, sort
stably by descending rounded total score, and keep the first five. -/
def recommendPackages (packages : List HajjPackage) (prefs : Preferences) :
    List Recommendation :=
  (sortDesc (candidates packages prefs)).take 5

/-! ## Spec-side definitions

These definitions follow the specification's wording, to be compared
against the definitions above, which were translated from the source. -/

/-- Whether a preference field of TS type `α | 'any' | undefined` holds a
concrete value. -/
def PrefChoice.isChosen {α : Type} : PrefChoice α → Bool
  | PrefChoice.chosen _ => true
  | _ => false

/-- Spec-side: the upgrade fee a given stay location contributes to a
non-quad tier — the fee itself when it is defined and strictly positive,
otherwise 0 ("absent locations contribute 0"). -/
def specLocFee (pkg : HajjPackage) (loc : StayLocation) (occ : OccupancyType) : ℚ :=
  let cityFees : Option CityFees :=
    match loc with
    | StayLocation.makkah => pkg.upgradeFees.bind (fun u => u.makkah)
    | StayLocation.madinah => pkg.upgradeFees.bind (fun u => u.madinah)
    | StayLocation.aziziya => pkg.upgradeFees.bind (fun u => u.aziziya)
  match cityFees.bind
      (fun f => if occ = OccupancyType.double then f.double else f.triple) with
  | some fee => if 0 < fee then fee else 0
  | none => 0

/-- Spec-side: "sum the available (positive) upgrade fees for that tier
across all three stay locations". -/
def specFeeSum (pkg : HajjPackage) (occ : OccupancyType) : ℚ :=
  specLocFee pkg StayLocation.makkah occ + specLocFee pkg StayLocation.madinah occ +
    specLocFee pkg StayLocation.aziziya occ

/-- Spec-side: does some stay location have a defined, strictly positive
upgrade fee for the given tier? -/
def someLocationHasPositiveFee (pkg : HajjPackage) (occ : OccupancyType) : Prop :=
  ∃ loc : StayLocation, 0 < specLocFee pkg loc occ

/-- Whether the duration preference is active:
`prefs.durationDays && prefs.durationDays > 0`. -/
def durationActive (o : Option ℚ) : Bool :=
  match o with
  | some d => decide (0 < d)
  | none => false

/-- Spec-side: the number of active preference fields — exactly the
fields the matcher counts into `max`. -/
def activeFieldCount (prefs : Preferences) : ℚ :=
  (if providerActive prefs.provider then 1 else 0) +
    (if prefs.firstStay.isChosen then 1 else 0) +
    (if prefs.lastStay.isChosen then 1 else 0) +
    (if prefs.makkahZone.isChosen then 1 else 0) +
    (if prefs.minaCamp.isChosen then 1 else 0) +
    (if prefs.shifting.isChosen then 1 else 0) +
    (if dateStrTruthy prefs.startDate && dateStrTruthy prefs.endDate then 1 else 0) +
    (if durationActive prefs.durationDays then 1 else 0)

/-- The same preference record with the date window removed. -/
def clearDates (prefs : Preferences) : Preferences :=
  { prefs with startDate := DateStr.empty, endDate := DateStr.empty }

/-- The descending-score ordering the orchestrator sorts by. -/
def scoreGE (a b : Recommendation) : Prop := b.totalScore ≤ a.totalScore

/-- The predicate "this recommendation has total score `s`". -/
def scoreIs (s : ℚ) (r : Recommendation) : Bool := decide (r.totalScore = s)

/-! ## Helper lemmas -/

theorem feeOrZero_nonneg (n : Option ℚ) : 0 ≤ feeOrZero n := by
  unfold feeOrZero
  cases n with
  | none => norm_num
  | some x =>
    dsimp only
    split
    · linarith
    · norm_num

theorem tierFeeTotal_nonneg (fees : UpgradeFees) (occ : OccupancyType) :
    0 ≤ tierFeeTotal fees occ := by
  unfold tierFeeTotal
  have h1 := feeOrZero_nonneg
    (fees.makkah.bind (fun f => if occ = OccupancyType.double then f.double else f.triple))
  have h2 := feeOrZero_nonneg
    (fees.madinah.bind (fun f => if occ = OccupancyType.double then f.double else f.triple))
  have h3 := feeOrZero_nonneg
    (fees.aziziya.bind (fun f => if occ = OccupancyType.double then f.double else f.triple))
  dsimp only
  linarith

/-- If some location has a defined, strictly positive fee for the tier,
the tier total is strictly positive. -/
theorem tierFeeTotal_pos (fees : UpgradeFees) (occ : OccupancyType) (f : ℚ)
    (hf : 0 < f)
    (h : fees.makkah.bind (fun g =>
        if occ = OccupancyType.double then g.double else g.triple) = some f ∨
      fees.madinah.bind (fun g =>
        if occ = OccupancyType.double then g.double else g.triple) = some f ∨
      fees.aziziya.bind (fun g =>
        if occ = OccupancyType.double then g.double else g.triple) = some f) :
    0 < tierFeeTotal fees occ := by
  have h1 := feeOrZero_nonneg (fees.makkah.bind (fun g =>
    if occ = OccupancyType.double then g.double else g.triple))
  have h2 := feeOrZero_nonneg (fees.madinah.bind (fun g =>
    if occ = OccupancyType.double then g.double else g.triple))
  have h3 := feeOrZero_nonneg (fees.aziziya.bind (fun g =>
    if occ = OccupancyType.double then g.double else g.triple))
  have hfz : feeOrZero (some f) = f := by simp [feeOrZero, hf]
  simp only [tierFeeTotal]
  rcases h with h | h | h <;> rw [h, hfz] <;> linarith

theorem insertDesc_perm (x : Recommendation) (l : List Recommendation) :
    (insertDesc x l).Perm (x :: l) := by
  induction l with
  | nil => simp [insertDesc]
  | cons y ys ih =>
    unfold insertDesc
    split
    · exact List.Perm.refl _
    · exact (List.Perm.cons y ih).trans (List.Perm.swap x y ys)

theorem insertDesc_pairwise (x : Recommendation) (l : List Recommendation)
    (h : l.Pairwise scoreGE) : (insertDesc x l).Pairwise scoreGE := by
  induction l with
  | nil => simp [insertDesc, scoreGE]
  | cons y ys ih =>
    rcases List.pairwise_cons.mp h with ⟨hy, hys⟩
    unfold insertDesc
    split
    · next hlt =>
      refine List.pairwise_cons.mpr ⟨?_, h⟩
      intro z hz
      rcases List.mem_cons.mp hz with rfl | hz
      · exact le_of_lt hlt
      · exact le_trans (hy z hz) (le_of_lt hlt)
    · next hge =>
      refine List.pairwise_cons.mpr ⟨?_, ih hys⟩
      intro z hz
      have hz2 : z ∈ x :: ys := (insertDesc_perm x ys).subset hz
      rcases List.mem_cons.mp hz2 with rfl | hz2
      · exact le_of_not_lt hge
      · exact hy z hz2

theorem foldl_insertDesc_perm (l acc : List Recommendation) :
    (l.foldl (fun a x => insertDesc x a) acc).Perm (acc ++ l) := by
  induction l generalizing acc with
  | nil => simp
  | cons x xs ih =>
    simp only [List.foldl_cons]
    exact (ih (insertDesc x acc)).trans
      (((insertDesc_perm x acc).append_right xs).trans List.perm_middle.symm)

theorem sortDesc_perm (l : List Recommendation) : (sortDesc l).Perm l := by
  simpa [sortDesc] using foldl_insertDesc_perm l []

theorem foldl_insertDesc_pairwise (l acc : List Recommendation)
    (h : acc.Pairwise scoreGE) :
    (l.foldl (fun a x => insertDesc x a) acc).Pairwise scoreGE := by
  induction l generalizing acc with
  | nil => exact h
  | cons x xs ih =>
    simp only [List.foldl_cons]
    exact ih (insertDesc x acc) (insertDesc_pairwise x acc h)

theorem sortDesc_pairwise (l : List Recommendation) :
    (sortDesc l).Pairwise scoreGE := by
  exact foldl_insertDesc_pairwise l [] (List.Pairwise.nil)

theorem filter_scoreIs_eq_nil (s : ℚ) (y : Recommendation)
    (ys : List Recommendation) (h : (y :: ys).Pairwise scoreGE)
    (hy : y.totalScore < s) : (y :: ys).filter (scoreIs s) = [] := by
  rw [List.filter_eq_nil_iff]
  intro a ha
  rcases List.pairwise_cons.mp h with ⟨hall, _⟩
  have hale : a.totalScore ≤ y.totalScore := by
    rcases List.mem_cons.mp ha with rfl | ha2
    · exact le_refl _
    · exact hall a ha2
  simp only [scoreIs, decide_eq_true_eq]
  exact ne_of_lt (lt_of_le_of_lt hale hy)

theorem insertDesc_filter (s : ℚ) (x : Recommendation) (l : List Recommendation)
    (h : l.Pairwise scoreGE) :
    (insertDesc x l).filter (scoreIs s) =
      l.filter (scoreIs s) ++ if x.totalScore = s then [x] else [] := by
  induction l with
  | nil =>
    simp only [insertDesc, List.filter_nil, List.nil_append]
    by_cases hx : x.totalScore = s <;> simp [List.filter, scoreIs, hx]
  | cons y ys ih =>
    rcases List.pairwise_cons.mp h with ⟨hy, hys⟩
    unfold insertDesc
    split
    · next hlt =>
      by_cases hx : x.totalScore = s
      · have hnil : (y :: ys).filter (scoreIs s) = [] :=
          filter_scoreIs_eq_nil s y ys h (by rw [← hx]; exact hlt)
        simp [List.filter_cons, scoreIs, hx, hnil]
      · simp [List.filter_cons, scoreIs, hx]
    · next hge =>
      by_cases hyv : y.totalScore = s <;>
        simp [List.filter_cons, scoreIs, hyv, ih hys]

theorem foldl_insertDesc_filter (s : ℚ) (l acc : List Recommendation)
    (h : acc.Pairwise scoreGE) :
    (l.foldl (fun a x => insertDesc x a) acc).filter (scoreIs s) =
      acc.filter (scoreIs s) ++ l.filter (scoreIs s) := by
  induction l generalizing acc with
  | nil => simp
  | cons x xs ih =>
    simp only [List.foldl_cons]
    rw [ih (insertDesc x acc) (insertDesc_pairwise x acc h),
      insertDesc_filter s x acc h]
    by_cases hx : x.totalScore = s <;>
      simp [List.filter_cons, scoreIs, hx]

theorem sortDesc_filter (s : ℚ) (l : List Recommendation) :
    (sortDesc l).filter (scoreIs s) = l.filter (scoreIs s) := by
  simpa [sortDesc] using foldl_insertDesc_filter s l [] List.Pairwise.nil

/-- A defined resolved price forces a strictly positive base price. -/
theorem priceForOccupancy_base_pos (pkg : HajjPackage) (occ : OccupancyType)
    (p : ℚ) (h : priceForOccupancy pkg occ = some p) : 0 < pkg.basePriceSAR := by
  simp only [priceForOccupancy] at h
  by_cases hb : pkg.basePriceSAR ≤ 0
  · rw [if_pos hb] at h
    simp at h
  · exact lt_of_not_le hb

/-- Inversion on the candidate loop: a pushed recommendation references
its package, and that package has a strictly positive base price. -/
theorem evalCandidate_some (prefs : Preferences) (pkg : HajjPackage)
    (r : Recommendation) (h : evalCandidate prefs pkg = some r) :
    r.pkg = pkg ∧ 0 < pkg.basePriceSAR := by
  unfold evalCandidate at h
  split at h
  · split at h
    · exact absurd h (by simp)
    · next price heq =>
      split at h
      · exact absurd h (by simp)
      · next hpos =>
        have hr := (Option.some_inj.mp h).symm
        exact ⟨by rw [hr], priceForOccupancy_base_pos pkg (requestedOcc prefs) price heq⟩
  · exact absurd h (by simp)

/-- When both preference window dates are truthy strings but any of the
four dates fails to parse, the field scores 0 but still counts into
`max`. -/
theorem dateContrib_of_parse_fail (pkg : HajjPackage) (prefs : Preferences)
    (h1 : dateStrTruthy prefs.startDate = true)
    (h2 : dateStrTruthy prefs.endDate = true)
    (h3 : parseISO prefs.startDate = none ∨ parseISO prefs.endDate = none ∨
      parseISO pkg.startDate = none ∨ parseISO pkg.endDate = none) :
    dateContrib pkg prefs = (0, 1) := by
  unfold dateContrib
  rw [h1, h2]
  simp only [Bool.and_self, if_true]
  simp only [Prod.mk.injEq, and_true]
  rcases h3 with h | h | h | h <;> (split <;> simp_all)

/-- With the date window cleared the field contributes nothing. -/
theorem dateContrib_clearDates (pkg : HajjPackage) (prefs : Preferences) :
    dateContrib pkg (clearDates prefs) = (0, 0) := by
  simp [dateContrib, clearDates, dateStrTruthy]

/-- Every non-date field of the matcher is unchanged by clearing the date
window. -/
theorem scorePreferences_clearDates (pkg : HajjPackage) (prefs : Preferences)
    (h1 : dateStrTruthy prefs.startDate = true)
    (h2 : dateStrTruthy prefs.endDate = true)
    (h3 : parseISO prefs.startDate = none ∨ parseISO prefs.endDate = none ∨
      parseISO pkg.startDate = none ∨ parseISO pkg.endDate = none) :
    (scorePreferences pkg prefs).score =
      (scorePreferences pkg (clearDates prefs)).score ∧
    (scorePreferences pkg prefs).max =
      (scorePreferences pkg (clearDates prefs)).max + 1 := by
  have hd := dateContrib_of_parse_fail pkg prefs h1 h2 h3
  have hd0 := dateContrib_clearDates pkg prefs
  have e1 : providerContrib pkg (clearDates prefs) = providerContrib pkg prefs := rfl
  have e2 : firstStayContrib pkg (clearDates prefs) = firstStayContrib pkg prefs := rfl
  have e3 : lastStayContrib pkg (clearDates prefs) = lastStayContrib pkg prefs := rfl
  have e4 : makkahZoneContrib pkg (clearDates prefs) = makkahZoneContrib pkg prefs := rfl
  have e5 : minaCampContrib pkg (clearDates prefs) = minaCampContrib pkg prefs := rfl
  have e6 : shiftingContrib pkg (clearDates prefs) = shiftingContrib pkg prefs := rfl
  have e8 : durationContrib pkg (clearDates prefs) = durationContrib pkg prefs := rfl
  constructor <;>
    (simp only [scorePreferences, hd, hd0, e1, e2, e3, e4, e5, e6, e8]; try ring)

/-- Changing only the camp of a record does not change the matcher output
when the camp preference is not a concrete value. -/
theorem scorePreferences_camp_invariant (pkg : HajjPackage) (prefs : Preferences)
    (c : MinaCamp) (h : prefs.minaCamp.isChosen = false) :
    scorePreferences { pkg with minaCamp := c } prefs = scorePreferences pkg prefs := by
  have e5 : minaCampContrib { pkg with minaCamp := c } prefs =
      minaCampContrib pkg prefs := by
    unfold minaCampContrib
    cases hm : prefs.minaCamp with
    | chosen d => rw [hm] at h; simp [PrefChoice.isChosen] at h
    | unset => rfl
    | anyc => rfl
  have e1 : providerContrib { pkg with minaCamp := c } prefs =
      providerContrib pkg prefs := rfl
  have e2 : firstStayContrib { pkg with minaCamp := c } prefs =
      firstStayContrib pkg prefs := rfl
  have e3 : lastStayContrib { pkg with minaCamp := c } prefs =
      lastStayContrib pkg prefs := rfl
  have e4 : makkahZoneContrib { pkg with minaCamp := c } prefs =
      makkahZoneContrib pkg prefs := rfl
  have e6 : shiftingContrib { pkg with minaCamp := c } prefs =
      shiftingContrib pkg prefs := rfl
  have e7 : dateContrib { pkg with minaCamp := c } prefs =
      dateContrib pkg prefs := rfl
  have e8 : durationContrib { pkg with minaCamp := c } prefs =
      durationContrib pkg prefs := rfl
  simp only [scorePreferences, e1, e2, e3, e4, e5, e6, e7, e8]

theorem zoneQuality_bounds (z : MakkahZone) : 0 ≤ zoneQuality z ∧ zoneQuality z ≤ 1 := by
  cases z <;> norm_num [zoneQuality]

theorem shiftQuality_bounds (pkg : HajjPackage) :
    0 ≤ shiftQuality pkg ∧ shiftQuality pkg ≤ 5 / 10 := by
  unfold shiftQuality
  split <;> norm_num

theorem hotelsQuality_bounds (pkg : HajjPackage) :
    0 ≤ hotelsQuality pkg ∧ hotelsQuality pkg ≤ 2 / 10 := by
  unfold hotelsQuality
  split <;> norm_num

theorem flightQuality_bounds (pkg : HajjPackage) :
    0 ≤ flightQuality pkg ∧ flightQuality pkg ≤ 15 / 100 := by
  unfold flightQuality
  rcases hfl : pkg.flight with _ | f
  · norm_num
  · rcases hp : f.priceSAR with _ | p
    · simp [hp]
      norm_num
    · by_cases h0 : 0 < p <;> simp [hp, h0] <;> norm_num

/-- Upgrading the camp of a `muaisim` record to `majr` raises its value
quality by exactly `(1 - 0.6) / 3 = 2/15`; the `min` clamp never binds
because the remaining components sum to at most `1.85`. -/
theorem scoreValueQuality_majr_vs_muaisim (pkg : HajjPackage)
    (h : pkg.minaCamp = MinaCamp.muaisim) :
    scoreValueQuality { pkg with minaCamp := MinaCamp.majr } =
      scoreValueQuality pkg + 2 / 15 := by
  have hzone : ({ pkg with minaCamp := MinaCamp.majr } : HajjPackage).makkahZone =
      pkg.makkahZone := rfl
  have hshift : shiftQuality { pkg with minaCamp := MinaCamp.majr } =
      shiftQuality pkg := rfl
  have hhotels : hotelsQuality { pkg with minaCamp := MinaCamp.majr } =
      hotelsQuality pkg := rfl
  have hflight : flightQuality { pkg with minaCamp := MinaCamp.majr } =
      flightQuality pkg := rfl
  have hz := zoneQuality_bounds pkg.makkahZone
  have hs := shiftQuality_bounds pkg
  have hh := hotelsQuality_bounds pkg
  have hf := flightQuality_bounds pkg
  unfold scoreValueQuality
  rw [hzone, hshift, hhotels, hflight, h]
  have hcampM : campQuality (({ pkg with minaCamp := MinaCamp.majr } :
      HajjPackage).minaCamp) = 1 := rfl
  rw [hcampM]
  have hcamp : campQuality MinaCamp.muaisim = 6 / 10 := rfl
  rw [hcamp]
  rw [min_eq_left (by linarith), min_eq_left (by linarith)]
  ring

/-- A non-positive budget amount makes the budget target non-positive, so
the budget score is 0 for every price. -/
theorem scoreBudgetFit_of_nonpos_budget (prefs : Preferences)
    (h : prefs.budgetAmount ≤ 0) (p : ℚ) : scoreBudgetFit p prefs = 0 := by
  have hden : (0 : ℚ) < max 1 prefs.hujjajCount :=
    lt_of_lt_of_le one_pos (le_max_left 1 prefs.hujjajCount)
  have ht : budgetTarget prefs ≤ 0 :=
    div_nonpos_iff.mpr (Or.inr ⟨h, le_of_lt hden⟩)
  simp only [scoreBudgetFit]
  rw [if_pos ht]

theorem scarcityPenalty_majr (pkg : HajjPackage)
    (h : pkg.minaCamp = MinaCamp.majr) : scarcityPenalty pkg = 15 / 100 := by
  simp [scarcityPenalty, MINA_CAPACITY, h]

theorem scarcityPenalty_muaisim (pkg : HajjPackage)
    (h : pkg.minaCamp = MinaCamp.muaisim) : scarcityPenalty pkg = 0 := by
  simp [scarcityPenalty, MINA_CAPACITY, h]

theorem providerContrib_snd (pkg : HajjPackage) (prefs : Preferences) :
    (providerContrib pkg prefs).2 = if providerActive prefs.provider then 1 else 0 := by
  unfold providerContrib providerActive
  rcases h : prefs.provider with _ | s
  · simp
  · by_cases hs1 : s = ""
    · simp [hs1]
    · by_cases hs2 : s = "any" <;> simp [hs1, hs2]

theorem firstStayContrib_snd (pkg : HajjPackage) (prefs : Preferences) :
    (firstStayContrib pkg prefs).2 =
      if prefs.firstStay.isChosen then 1 else 0 := by
  rcases h : prefs.firstStay with _ | _ | c <;>
    simp [firstStayContrib, PrefChoice.isChosen, h]

theorem lastStayContrib_snd (pkg : HajjPackage) (prefs : Preferences) :
    (lastStayContrib pkg prefs).2 =
      if prefs.lastStay.isChosen then 1 else 0 := by
  rcases h : prefs.lastStay with _ | _ | c <;>
    simp [lastStayContrib, PrefChoice.isChosen, h]

theorem makkahZoneContrib_snd (pkg : HajjPackage) (prefs : Preferences) :
    (makkahZoneContrib pkg prefs).2 =
      if prefs.makkahZone.isChosen then 1 else 0 := by
  rcases h : prefs.makkahZone with _ | _ | z <;>
    simp [makkahZoneContrib, PrefChoice.isChosen, h]

theorem minaCampContrib_snd (pkg : HajjPackage) (prefs : Preferences) :
    (minaCampContrib pkg prefs).2 =
      if prefs.minaCamp.isChosen then 1 else 0 := by
  rcases h : prefs.minaCamp with _ | _ | c <;>
    simp [minaCampContrib, PrefChoice.isChosen, h]

theorem shiftingContrib_snd (pkg : HajjPackage) (prefs : Preferences) :
    (shiftingContrib pkg prefs).2 =
      if prefs.shifting.isChosen then 1 else 0 := by
  rcases h : prefs.shifting with _ | _ | sh <;>
    simp [shiftingContrib, PrefChoice.isChosen, h]

theorem dateContrib_snd (pkg : HajjPackage) (prefs : Preferences) :
    (dateContrib pkg prefs).2 =
      if dateStrTruthy prefs.startDate && dateStrTruthy prefs.endDate then 1
      else 0 := by
  unfold dateContrib
  by_cases h : dateStrTruthy prefs.startDate && dateStrTruthy prefs.endDate <;>
    simp [h]

theorem durationContrib_snd (pkg : HajjPackage) (prefs : Preferences) :
    (durationContrib pkg prefs).2 =
      if durationActive prefs.durationDays then 1 else 0 := by
  unfold durationContrib durationActive
  rcases h : prefs.durationDays with _ | d
  · simp
  · by_cases hd : 0 < d <;> simp [hd]

/-- The matcher's `max` depends only on which preference fields are
active, never on the record. -/
theorem scorePreferences_max_eq (pkg : HajjPackage) (prefs : Preferences) :
    (scorePreferences pkg prefs).max = activeFieldCount prefs := by
  simp only [scorePreferences, activeFieldCount, providerContrib_snd,
    firstStayContrib_snd, lastStayContrib_snd, makkahZoneContrib_snd,
    minaCampContrib_snd, shiftingContrib_snd, dateContrib_snd,
    durationContrib_snd]

/-! ## Concrete inputs used by witnesses and counterexamples -/

/-- A catalog record whose triple fee is defined-but-zero at Makkah and
positive (6000) at Madinah. -/
def pkgMaskedTriple : HajjPackage :=
  { id := "c1", provider := "P", packageName := "N",
    startDate := DateStr.parsed 100, endDate := DateStr.parsed 200,
    durationDays := 14, firstCity := StayLocation.madinah, isShifting := false,
    makkahZone := MakkahZone.A, minaCamp := MinaCamp.muaisim,
    hotels := [], basePriceSAR := 50000,
    upgradeFees := some
      { makkah := some { double := none, triple := some 0 },
        madinah := some { double := none, triple := some 6000 } } }

/-- Preferences requesting triple occupancy, nothing else. -/
def prefsTriple : Preferences :=
  { occupancy := PrefChoice.chosen OccupancyType.triple,
    budgetAmount := 0, hujjajCount := 1 }

/-- A plain record with valid parsed dates. -/
def pkgPlain : HajjPackage :=
  { id := "t", provider := "P", packageName := "N",
    startDate := DateStr.parsed 100, endDate := DateStr.parsed 200,
    durationDays := 15, firstCity := StayLocation.madinah, isShifting := false,
    makkahZone := MakkahZone.A, minaCamp := MinaCamp.muaisim,
    hotels := [⟨StayLocation.madinah, "H", DateStr.parsed 100⟩],
    basePriceSAR := 25000 }

/-- Preferences with a budget of 30000 for one person and no filters. -/
def prefsBudget : Preferences := { budgetAmount := 30000, hujjajCount := 1 }

/-- The recommendation the engine produces for `pkgPlain` under
`prefsBudget`. -/
def recPlain : Recommendation :=
  { pkg := pkgPlain, totalScore := 129 / 500,
    breakdown := { preferenceMatch := 0, valueQuality := 8 / 15,
                   budgetFit := 5 / 6, scarcityPenalty := 0 },
    reasons := ["Al Muaisim (high capacity)"] }

/-- Preferences whose date window is set but whose start date does not
parse. -/
def prefsBadDate : Preferences :=
  { startDate := DateStr.unparseable, endDate := DateStr.parsed 1000,
    budgetAmount := 0, hujjajCount := 1 }

/-- A `muaisim` record with base price 20000 and no upgrade fees. -/
def pkgCampBase : HajjPackage :=
  { id := "c3", provider := "P", packageName := "N",
    startDate := DateStr.parsed 100, endDate := DateStr.parsed 200,
    durationDays := 14, firstCity := StayLocation.madinah, isShifting := false,
    makkahZone := MakkahZone.A, minaCamp := MinaCamp.muaisim,
    hotels := [], basePriceSAR := 20000 }

/-- The identical record with the premium camp. -/
def pkgCampMajr : HajjPackage := { pkgCampBase with minaCamp := MinaCamp.majr }

/-- Preferences with no filters at all and a zero budget. -/
def prefsNone : Preferences := { budgetAmount := 0, hujjajCount := 1 }

/-- A record whose triple fee is undefined at Makkah and positive at
Madinah. -/
def pkgTripleAtMadinah : HajjPackage :=
  { id := "c10", provider := "P", packageName := "N",
    startDate := DateStr.parsed 100, endDate := DateStr.parsed 200,
    durationDays := 14, firstCity := StayLocation.madinah, isShifting := false,
    makkahZone := MakkahZone.A, minaCamp := MinaCamp.muaisim,
    hotels := [], basePriceSAR := 50000,
    upgradeFees := some
      { madinah := some { double := none, triple := some 6000 } } }

/-- A record with base price 0 (never priceable). -/
def pkgFreeBase : HajjPackage :=
  { id := "c9", provider := "P", packageName := "N",
    startDate := DateStr.parsed 100, endDate := DateStr.parsed 200,
    durationDays := 14, firstCity := StayLocation.madinah, isShifting := false,
    makkahZone := MakkahZone.A, minaCamp := MinaCamp.muaisim,
    hotels := [], basePriceSAR := 0 }

/-! ## Claim theorems -/

/-- C4: for every record, the quad price is undefined iff the base price
is non-positive and otherwise equals base plus the 4673.42 camp surcharge
exactly when the camp is premium (0 otherwise); for triple/double the
price is base plus surcharge plus the sum of the strictly positive
per-location upgrade fees for that tier (absent or non-positive fees
contribute 0), undefined when that sum is 0.  The surcharge applies to
every occupancy tier. -/
theorem priceForOccupancy_characterization (pkg : HajjPackage) (occ : OccupancyType) :
    priceForOccupancy pkg occ =
      if pkg.basePriceSAR ≤ 0 then none
      else if occ = OccupancyType.quad then
        some (pkg.basePriceSAR +
          (if pkg.minaCamp = MinaCamp.majr then 467342 / 100 else 0))
      else if specFeeSum pkg occ = 0 then none
      else
        some (pkg.basePriceSAR +
          (if pkg.minaCamp = MinaCamp.majr then 467342 / 100 else 0) +
          specFeeSum pkg occ) := by
  have hsur : majrFee pkg =
      if pkg.minaCamp = MinaCamp.majr then 467342 / 100 else 0 := rfl
  by_cases hb : pkg.basePriceSAR ≤ 0
  · simp [priceForOccupancy, hb]
  · by_cases hq : occ = OccupancyType.quad
    · simp [priceForOccupancy, hb, hq, hsur]
    · rcases hu : pkg.upgradeFees with _ | fees
      · have hsum : specFeeSum pkg occ = 0 := by
          simp [specFeeSum, specLocFee, hu]
        simp [priceForOccupancy, hb, hq, hu, hsum]
      · have hsum : specFeeSum pkg occ = tierFeeTotal fees occ := by
          simp [specFeeSum, specLocFee, tierFeeTotal, feeOrZero, hu]
        have h0 : 0 ≤ tierFeeTotal fees occ := tierFeeTotal_nonneg fees occ
        rcases eq_or_lt_of_le h0 with he | hl
        · simp [priceForOccupancy, hb, hq, hu, hsum, ← he]
        · simp [priceForOccupancy, hb, hq, hu, hsum, hl, ne_of_gt hl, hsur]

/-- C5: with the per-person target `budgetAmount / max(1, hujjajCount)`,
the budget fit is 0 when the target is non-positive; otherwise it equals
`max(0.6, price/target)` at or under the target (hence is non-decreasing
there and at least 0.6), equals `max(0, 1 - (price/target - 1))` at or
over the target (hence is non-increasing there), and is exactly 0 once
the price reaches twice the target. -/
theorem scoreBudgetFit_characterization (prefs : Preferences) :
    (budgetTarget prefs ≤ 0 → ∀ p, scoreBudgetFit p prefs = 0) ∧
    (0 < budgetTarget prefs →
      (∀ p, p ≤ budgetTarget prefs →
        scoreBudgetFit p prefs = max (6 / 10) (p / budgetTarget prefs)) ∧
      (∀ p1 p2, p1 ≤ p2 → p2 ≤ budgetTarget prefs →
        scoreBudgetFit p1 prefs ≤ scoreBudgetFit p2 prefs) ∧
      (∀ p, p ≤ budgetTarget prefs → 6 / 10 ≤ scoreBudgetFit p prefs) ∧
      (∀ p, budgetTarget prefs ≤ p →
        scoreBudgetFit p prefs = max 0 (1 - (p / budgetTarget prefs - 1))) ∧
      (∀ p1 p2, budgetTarget prefs ≤ p1 → p1 ≤ p2 →
        scoreBudgetFit p2 prefs ≤ scoreBudgetFit p1 prefs) ∧
      (∀ p, 2 * budgetTarget prefs ≤ p → scoreBudgetFit p prefs = 0)) := by
  constructor
  · intro ht p
    simp only [scoreBudgetFit]
    rw [if_pos ht]
  · intro ht
    have hne := not_le.mpr ht
    have hunder : ∀ p, p ≤ budgetTarget prefs →
        scoreBudgetFit p prefs = max (6 / 10) (p / budgetTarget prefs) := by
      intro p hp
      simp only [scoreBudgetFit]
      rw [if_neg hne, if_pos ((div_le_one ht).mpr hp)]
    have hover : ∀ p, budgetTarget prefs ≤ p →
        scoreBudgetFit p prefs = max 0 (1 - (p / budgetTarget prefs - 1)) := by
      intro p hp
      rcases eq_or_lt_of_le hp with he | hlt
      · rw [hunder p (le_of_eq he.symm), ← he, div_self (ne_of_gt ht)]
        norm_num
      · simp only [scoreBudgetFit]
        rw [if_neg hne, if_neg (not_le.mpr ((one_lt_div ht).mpr hlt))]
    refine ⟨hunder, ?_, ?_, hover, ?_, ?_⟩
    · intro p1 p2 h12 h2t
      rw [hunder p1 (le_trans h12 h2t), hunder p2 h2t]
      exact max_le_max (le_refl _) ((div_le_div_iff_of_pos_right ht).mpr h12)
    · intro p hp
      rw [hunder p hp]
      exact le_max_left _ _
    · intro p1 p2 h1t h12
      rw [hover p1 h1t, hover p2 (le_trans h1t h12)]
      have hd : p1 / budgetTarget prefs ≤ p2 / budgetTarget prefs :=
        (div_le_div_iff_of_pos_right ht).mpr h12
      exact max_le_max (le_refl _) (by linarith)
    · intro p hp
      have htp : budgetTarget prefs ≤ p := by linarith
      rw [hover p htp]
      have h2 : (2 : ℚ) ≤ p / budgetTarget prefs :=
        (le_div_iff₀ ht).mpr (by linarith)
      rw [max_eq_left (by linarith)]

/-- C5 witness: with a 30000 budget for one person the target is positive
and the fit at price 15000 evaluates per the characterization. -/
theorem scoreBudgetFit_characterization_witness :
    0 < budgetTarget prefsBudget ∧
    scoreBudgetFit 15000 prefsBudget =
      max (6 / 10) (15000 / budgetTarget prefsBudget) := by
  have ht : 0 < budgetTarget prefsBudget := by
    norm_num [budgetTarget, prefsBudget]
  exact ⟨ht, ((scoreBudgetFit_characterization prefsBudget).2 ht).1 15000
    (by norm_num [budgetTarget, prefsBudget])⟩

/-- C6: the matcher's max equals the number of active preference fields;
the normalized ratio is score/max when some field is active and 0 when
none is. -/
theorem normalizedMatch_characterization (pkg : HajjPackage) (prefs : Preferences) :
    (scorePreferences pkg prefs).max = activeFieldCount prefs ∧
    (activeFieldCount prefs = 0 → normalizedMatch pkg prefs = 0) ∧
    (activeFieldCount prefs ≠ 0 →
      normalizedMatch pkg prefs =
        (scorePreferences pkg prefs).score / (scorePreferences pkg prefs).max) := by
  have hmax := scorePreferences_max_eq pkg prefs
  refine ⟨hmax, ?_, ?_⟩
  · intro h0
    simp only [normalizedMatch]
    rw [if_pos (by rw [hmax, h0])]
  · intro hne
    simp only [normalizedMatch]
    rw [if_neg (by rw [hmax]; exact hne)]

/-- C6 witness: an empty preference set has no active field and yields a
zero normalized match for a concrete record. -/
theorem normalizedMatch_characterization_witness :
    activeFieldCount prefsNone = 0 ∧ normalizedMatch pkgPlain prefsNone = 0 := by
  have h0 : activeFieldCount prefsNone = 0 := by
    norm_num [activeFieldCount, prefsNone, providerActive, PrefChoice.isChosen,
      dateStrTruthy, durationActive]
  exact ⟨h0, (normalizedMatch_characterization pkgPlain prefsNone).2.1 h0⟩

/-- C7: the result is the stable descending-by-total sort of the
non-excluded candidates truncated to five: it is pairwise descending, the
sort permutes the candidate list, and elements of any fixed total score
keep their original catalog order. -/
theorem recommend_sorted_stable_top5 (packages : List HajjPackage)
    (prefs : Preferences) :
    recommendPackages packages prefs =
      (sortDesc (candidates packages prefs)).take 5 ∧
    (recommendPackages packages prefs).Pairwise scoreGE ∧
    (sortDesc (candidates packages prefs)).Perm (candidates packages prefs) ∧
    ∀ s : ℚ, (sortDesc (candidates packages prefs)).filter (scoreIs s) =
      (candidates packages prefs).filter (scoreIs s) := by
  refine ⟨rfl, ?_, sortDesc_perm _, fun s => sortDesc_filter s _⟩
  exact (sortDesc_pairwise (candidates packages prefs)).sublist
    (List.take_sublist 5 _)

/-- C8: the output has at most five entries and no more entries than the
catalog; an empty catalog, or a catalog whose candidates are all
excluded, gives an empty result rather than an error. -/
theorem recommend_bounded (packages : List HajjPackage) (prefs : Preferences) :
    (recommendPackages packages prefs).length ≤ 5 ∧
    (recommendPackages packages prefs).length ≤ packages.length ∧
    recommendPackages [] prefs = [] ∧
    (candidates packages prefs = [] → recommendPackages packages prefs = []) := by
  refine ⟨?_, ?_, rfl, ?_⟩
  · simp only [recommendPackages, List.length_take]
    exact min_le_left _ _
  · simp only [recommendPackages, List.length_take]
    have h1 : (sortDesc (candidates packages prefs)).length =
        (candidates packages prefs).length := (sortDesc_perm _).length_eq
    have h2 : (candidates packages prefs).length ≤ packages.length :=
      List.length_filterMap_le _ _
    calc min 5 (sortDesc (candidates packages prefs)).length
        ≤ (sortDesc (candidates packages prefs)).length := min_le_right _ _
      _ = (candidates packages prefs).length := h1
      _ ≤ packages.length := h2
  · intro h
    simp only [recommendPackages, h]
    rfl

/-- C8 witness: a one-record catalog whose only candidate is excluded
(base price 0) yields the empty result. -/
theorem recommend_bounded_witness :
    candidates [pkgFreeBase] prefsNone = [] ∧
    recommendPackages [pkgFreeBase] prefsNone = [] := by
  have h : candidates [pkgFreeBase] prefsNone = [] := by
    simp [candidates, evalCandidate, availabilityOk, requestedOcc,
      priceForOccupancy, pkgFreeBase, prefsNone]
  exact ⟨h, (recommend_bounded [pkgFreeBase] prefsNone).2.2.2 h⟩

/-- C9: a record with non-positive base price resolves to unpriced for
every occupancy tier, and every recommendation in any output references a
package with strictly positive base price — so a base-price-0 record
never appears, for every preference record. -/
theorem recommend_excludes_zero_base :
    (∀ (pkg : HajjPackage) (occ : OccupancyType), pkg.basePriceSAR ≤ 0 →
      priceForOccupancy pkg occ = none) ∧
    (∀ (packages : List HajjPackage) (prefs : Preferences)
      (r : Recommendation), r ∈ recommendPackages packages prefs →
      0 < r.pkg.basePriceSAR) := by
  constructor
  · intro pkg occ h
    simp only [priceForOccupancy]
    rw [if_pos h]
  · intro packages prefs r hr
    have h1 : r ∈ sortDesc (candidates packages prefs) :=
      (List.take_sublist 5 _).subset hr
    have h2 : r ∈ candidates packages prefs := (sortDesc_perm _).subset h1
    rcases List.mem_filterMap.mp h2 with ⟨pkg, _, he⟩
    rcases evalCandidate_some prefs pkg r he with ⟨hpkg, hpos⟩
    rw [hpkg]
    exact hpos

/-- The engine's output on the one-record catalog used by the C9
witness. -/
theorem evalCandidate_plain :
    evalCandidate prefsBudget pkgPlain = some recPlain := by
  simp [evalCandidate, availabilityOk, requestedOcc, priceForOccupancy, majrFee,
    MAJR_UPGRADE_FEE_SAR, normalizedMatch, scorePreferences, providerContrib,
    firstStayContrib, lastStayContrib, makkahZoneContrib, minaCampContrib,
    shiftingContrib, dateContrib, durationContrib, scoreValueQuality,
    campQuality, zoneQuality, shiftQuality, hotelsQuality, flightQuality,
    scoreBudgetFit, budgetTarget, scarcityPenalty, MINA_CAPACITY,
    totalUnrounded, roundTo3, reasonsFor, pkgPlain, prefsBudget, recPlain,
    dateStrTruthy]
  norm_num [round_eq, Breakdown.mk.injEq]

/-- C9 witness: a concrete non-empty output whose element the theorem
shows has positive base price. -/
theorem recommend_excludes_zero_base_witness :
    recPlain ∈ recommendPackages [pkgPlain] prefsBudget ∧
    0 < recPlain.pkg.basePriceSAR := by
  have hmem : recPlain ∈ recommendPackages [pkgPlain] prefsBudget := by
    simp [recommendPackages, candidates, evalCandidate_plain, sortDesc, insertDesc]
  exact ⟨hmem,
    recommend_excludes_zero_base.2 [pkgPlain] prefsBudget recPlain hmem⟩

/-- C10: whenever the availability check passes for a non-quad tier on a
record with positive base price, the pricing resolver returns a defined
price for the same record and tier. -/
theorem availability_implies_priced (pkg : HajjPackage) (occ : OccupancyType)
    (hocc : occ ≠ OccupancyType.quad) (hbase : 0 < pkg.basePriceSAR)
    (hav : occupancyAvailable pkg occ = true) :
    ∃ p, priceForOccupancy pkg occ = some p := by
  unfold occupancyAvailable at hav
  rw [if_neg hocc] at hav
  rcases hc : coalescedFee pkg occ with _ | f
  · rw [hc] at hav
    simp at hav
  · rw [hc] at hav
    have hf : 0 < f := by simpa using hav
    rcases hu : pkg.upgradeFees with _ | fees
    · have : coalescedFee pkg occ = none := by simp [coalescedFee, hu]
      rw [this] at hc
      simp at hc
    · have hchain :
          (fees.makkah.bind (fun g =>
            if occ = OccupancyType.double then g.double else g.triple) <|>
          fees.madinah.bind (fun g =>
            if occ = OccupancyType.double then g.double else g.triple) <|>
          fees.aziziya.bind (fun g =>
            if occ = OccupancyType.double then g.double else g.triple)) = some f := by
        rw [← hc]
        simp [coalescedFee, hu]
      have hdisj : fees.makkah.bind (fun g =>
            if occ = OccupancyType.double then g.double else g.triple) = some f ∨
          fees.madinah.bind (fun g =>
            if occ = OccupancyType.double then g.double else g.triple) = some f ∨
          fees.aziziya.bind (fun g =>
            if occ = OccupancyType.double then g.double else g.triple) = some f := by
        rcases hm : fees.makkah.bind (fun g =>
            if occ = OccupancyType.double then g.double else g.triple) with _ | g1
        · rcases hd : fees.madinah.bind (fun g =>
              if occ = OccupancyType.double then g.double else g.triple) with _ | g2
          · rcases ha : fees.aziziya.bind (fun g =>
                if occ = OccupancyType.double then g.double else g.triple) with _ | g3
            · rw [hm, hd, ha] at hchain
              simp at hchain
            · rw [hm, hd, ha] at hchain
              simp at hchain
              exact Or.inr (Or.inr (by simp [ha, hchain]))
          · rw [hm, hd] at hchain
            simp at hchain
            exact Or.inr (Or.inl (by simp [hd, hchain]))
        · rw [hm] at hchain
          simp at hchain
          exact Or.inl (by simp [hm, hchain])
      have htot := tierFeeTotal_pos fees occ f hf hdisj
      refine ⟨pkg.basePriceSAR + majrFee pkg + tierFeeTotal fees occ, ?_⟩
      simp only [priceForOccupancy]
      rw [if_neg (not_le.mpr hbase), if_neg hocc, hu]
      simp only
      rw [if_pos htot]

/-- C10 witness: a record offering the triple tier only at Madinah is
available for triple occupancy and indeed resolves to a defined price. -/
theorem availability_implies_priced_witness :
    (OccupancyType.triple ≠ OccupancyType.quad ∧
      0 < pkgTripleAtMadinah.basePriceSAR ∧
      occupancyAvailable pkgTripleAtMadinah OccupancyType.triple = true) ∧
    ∃ p, priceForOccupancy pkgTripleAtMadinah OccupancyType.triple = some p := by
  have h1 : OccupancyType.triple ≠ OccupancyType.quad := by decide
  have h2 : 0 < pkgTripleAtMadinah.basePriceSAR := by
    norm_num [pkgTripleAtMadinah]
  have h3 : occupancyAvailable pkgTripleAtMadinah OccupancyType.triple = true := by
    simp [occupancyAvailable, coalescedFee, pkgTripleAtMadinah]
  exact ⟨⟨h1, h2, h3⟩,
    availability_implies_priced pkgTripleAtMadinah OccupancyType.triple h1 h2 h3⟩

/-- C1: the code diverges from the claimed availability rule.  For a
record whose Makkah triple fee is a defined 0 and whose Madinah triple
fee is 6000, some location has a defined strictly positive triple fee
and the resolver prices the triple tier (56000), yet `occupancyAvailable`
returns false — the `??` chain stops at Makkah's defined 0 — and the
record is excluded from the results when triple occupancy is
requested. -/
theorem occupancyAvailable_divergence :
    someLocationHasPositiveFee pkgMaskedTriple OccupancyType.triple ∧
    occupancyAvailable pkgMaskedTriple OccupancyType.triple = false ∧
    priceForOccupancy pkgMaskedTriple OccupancyType.triple = some 56000 ∧
    recommendPackages [pkgMaskedTriple] prefsTriple = [] := by
  refine ⟨⟨StayLocation.madinah, ?_⟩, ?_, ?_, ?_⟩
  · decide
  · simp [occupancyAvailable, coalescedFee, pkgMaskedTriple]
  · simp [priceForOccupancy, tierFeeTotal, feeOrZero, majrFee,
      MAJR_UPGRADE_FEE_SAR, pkgMaskedTriple]
    norm_num
  · have h : evalCandidate prefsTriple pkgMaskedTriple = none := by
      simp [evalCandidate, availabilityOk, prefsTriple, occupancyAvailable,
        coalescedFee, pkgMaskedTriple]
    simp [recommendPackages, candidates, h, sortDesc]

/-- C2 counterexample: with the window set but the preference start date
unparseable, the matcher still adds 1 to `max` for the date field — it is
not skipped like an unset preference, whose `max` would be 0. -/
theorem dateParse_counterexample :
    dateStrTruthy prefsBadDate.startDate = true ∧
    dateStrTruthy prefsBadDate.endDate = true ∧
    parseISO prefsBadDate.startDate = none ∧
    (scorePreferences pkgPlain prefsBadDate).max = 1 ∧
    (scorePreferences pkgPlain (clearDates prefsBadDate)).max = 0 := by
  refine ⟨rfl, rfl, rfl, ?_, ?_⟩ <;>
    norm_num [scorePreferences, providerContrib, firstStayContrib,
      lastStayContrib, makkahZoneContrib, minaCampContrib, shiftingContrib,
      dateContrib, durationContrib, prefsBadDate, pkgPlain, clearDates,
      dateStrTruthy, parseISO]

/-- C2 (amended): when both window dates are set but any of the four
dates fails to parse, the date field contributes 0 to the raw score but
still contributes 1 to the max possible score — the raw score equals the
one with the window unset while the max is one larger. -/
theorem dateParse_amended (pkg : HajjPackage) (prefs : Preferences)
    (h1 : dateStrTruthy prefs.startDate = true)
    (h2 : dateStrTruthy prefs.endDate = true)
    (h3 : parseISO prefs.startDate = none ∨ parseISO prefs.endDate = none ∨
      parseISO pkg.startDate = none ∨ parseISO pkg.endDate = none) :
    dateContrib pkg prefs = (0, 1) ∧
    (scorePreferences pkg prefs).score =
      (scorePreferences pkg (clearDates prefs)).score ∧
    (scorePreferences pkg prefs).max =
      (scorePreferences pkg (clearDates prefs)).max + 1 := by
  rcases scorePreferences_clearDates pkg prefs h1 h2 h3 with ⟨hs, hm⟩
  exact ⟨dateContrib_of_parse_fail pkg prefs h1 h2 h3, hs, hm⟩

/-- C2 witness: the amended statement instantiated at the concrete bad
date window. -/
theorem dateParse_amended_witness :
    (dateStrTruthy prefsBadDate.startDate = true ∧
      dateStrTruthy prefsBadDate.endDate = true ∧
      parseISO prefsBadDate.startDate = none) ∧
    dateContrib pkgPlain prefsBadDate = (0, 1) ∧
    (scorePreferences pkgPlain prefsBadDate).score =
      (scorePreferences pkgPlain (clearDates prefsBadDate)).score ∧
    (scorePreferences pkgPlain prefsBadDate).max =
      (scorePreferences pkgPlain (clearDates prefsBadDate)).max + 1 :=
  ⟨⟨rfl, rfl, rfl⟩,
   dateParse_amended pkgPlain prefsBadDate rfl rfl (Or.inl rfl)⟩

/-- C3 counterexample: two records identical except for the camp tier,
base price 20000, no camp preference and zero budget: the premium
record's total is 0.017 and the non-premium one's 0.133, and
0.017 ≠ 0.133 − 0.15 — the difference is not exactly the scarcity
penalty, because the premium camp also raises the value-quality score. -/
theorem campPenalty_counterexample :
    pkgCampMajr = { pkgCampBase with minaCamp := MinaCamp.majr } ∧
    pkgCampBase.minaCamp = MinaCamp.muaisim ∧
    pkgCampBase.basePriceSAR = 20000 ∧
    prefsNone.minaCamp = PrefChoice.unset ∧
    (evalCandidate prefsNone pkgCampMajr).map Recommendation.totalScore
      = some (17 / 1000) ∧
    (evalCandidate prefsNone pkgCampBase).map Recommendation.totalScore
      = some (133 / 1000) ∧
    (17 / 1000 : ℚ) ≠ 133 / 1000 - 15 / 100 := by
  refine ⟨rfl, rfl, rfl, rfl, ?_, ?_, by norm_num⟩ <;>
    (simp [evalCandidate, availabilityOk, requestedOcc, priceForOccupancy,
      majrFee, MAJR_UPGRADE_FEE_SAR, normalizedMatch, scorePreferences,
      providerContrib, firstStayContrib, lastStayContrib, makkahZoneContrib,
      minaCampContrib, shiftingContrib, dateContrib, durationContrib,
      scoreValueQuality, campQuality, zoneQuality, shiftQuality, hotelsQuality,
      flightQuality, scoreBudgetFit, budgetTarget, scarcityPenalty,
      MINA_CAPACITY, totalUnrounded, roundTo3, pkgCampMajr, pkgCampBase,
      prefsNone, dateStrTruthy];
     norm_num [round_eq])

/-- C3 (amended): for records identical except for the camp, with no camp
preference and a non-positive budget target, the premium record's
pre-rounding total equals the non-premium one's minus the 0.15 scarcity
penalty plus 1/30 — the value-quality head start (1 − 0.6)/3 weighted by
0.25; the scarcity components themselves are 0.15 versus 0. -/
theorem campPenalty_amended (pkg : HajjPackage) (prefs : Preferences) (p q : ℚ)
    (h1 : pkg.minaCamp = MinaCamp.muaisim)
    (h2 : prefs.minaCamp.isChosen = false)
    (h3 : prefs.budgetAmount ≤ 0) :
    scarcityPenalty { pkg with minaCamp := MinaCamp.majr } = 15 / 100 ∧
    scarcityPenalty pkg = 0 ∧
    totalUnrounded { pkg with minaCamp := MinaCamp.majr } prefs p =
      totalUnrounded pkg prefs q - 15 / 100 + 1 / 30 := by
  have hs1 : scarcityPenalty { pkg with minaCamp := MinaCamp.majr } = 15 / 100 :=
    scarcityPenalty_majr _ rfl
  have hs0 : scarcityPenalty pkg = 0 := scarcityPenalty_muaisim pkg h1
  refine ⟨hs1, hs0, ?_⟩
  have hpref := scorePreferences_camp_invariant pkg prefs MinaCamp.majr h2
  have hval := scoreValueQuality_majr_vs_muaisim pkg h1
  have hb1 := scoreBudgetFit_of_nonpos_budget prefs h3 p
  have hb2 := scoreBudgetFit_of_nonpos_budget prefs h3 q
  simp only [totalUnrounded, normalizedMatch, hpref, hval, hb1, hb2, hs1, hs0]
  ring

/-- C3 witness: the amended statement instantiated at the concrete camp
pair. -/
theorem campPenalty_amended_witness :
    (pkgCampBase.minaCamp = MinaCamp.muaisim ∧
      prefsNone.minaCamp.isChosen = false ∧ prefsNone.budgetAmount ≤ 0) ∧
    totalUnrounded { pkgCampBase with minaCamp := MinaCamp.majr } prefsNone 1 =
      totalUnrounded pkgCampBase prefsNone 1 - 15 / 100 + 1 / 30 :=
  ⟨⟨rfl, rfl, by norm_num [prefsNone]⟩,
   (campPenalty_amended pkgCampBase prefsNone 1 1 rfl rfl
     (by norm_num [prefsNone])).2.2⟩

end HajjRec
